import Mathlib

/-!
Verification of the staticcldf static-site generator.

Shallow embedding of the repository's Python sources:
  * `build_site.py`  — `fill_template`, `read_cldf_data`, `build_html`,
    `build_tables`, `load_config`, `main`;
  * `staticcldf/input_cldf.py` — the full-table `read_cldf_data` variant;
  * `staticcldf/render_html.py` — the Jinja-based `build_html` variant;
  * `staticcldf/utils.py` — `load_config`.

External library behaviour that the sources call into (Python's
`string.Template.safe_substitute`, `tabulate(..., tablefmt=html)`,
`markdown.markdown`) is embedded from the documented behaviour of those
libraries, as exercised by this repository.

Python `dict`s are embedded as association lists with insertion-order
update semantics; the mutable heap of dictionaries manipulated by
`build_tables` is embedded as an explicit list of dictionaries indexed
by allocation order, so that `.copy()` and in-place item assignment are
modelled faithfully.
-/

/-! ## Python dictionaries as association lists -/

/-- Lookup in a Python dict embedded as an association list (first match;
keys are unique in dicts built by the program). -/
def dictGet (d : List (String × String)) (k : String) : Option String :=
  match d with
  | [] => none
  | (k2, v) :: rest => if k2 = k then some v else dictGet rest k

/-- Python dict item assignment `d[k] = v`: overwrite in place if the key is
present (keeping insertion order), otherwise append at the end. -/
def dictSet (d : List (String × String)) (k v : String) : List (String × String) :=
  if (d.map Prod.fst).contains k then
    d.map (fun kv => if kv.1 = k then (k, v) else kv)
  else
    d ++ [(k, v)]

/-! ## Python string.Template.safe_substitute

CPython's default `Template` pattern over delimiter `$`:
`$$` is an escaped delimiter, `$name` and `$\x7bname\x7d` are placeholders
(identifier = `[_a-zA-Z][_a-zA-Z0-9]*`, greedy), anything else after `$`
is an invalid pattern that `safe_substitute` leaves in place.  `re.sub`
scans left to right and never rescans substituted text within one pass. -/

/-- First character class of a Python `Template` identifier. -/
def isIdStart (c : Char) : Bool :=
  c = '_' || ('a' ≤ c && c ≤ 'z') || ('A' ≤ c && c ≤ 'Z')

/-- Subsequent character class of a Python `Template` identifier. -/
def isIdChar (c : Char) : Bool :=
  isIdStart c || ('0' ≤ c && c ≤ '9')

/-- One step of the left-to-right `re.sub` scan of `safe_substitute` on a
non-empty input `c :: rest`: returns the emitted output chunk and the
remaining input still to be scanned. -/
def subStep (m : List (String × String)) (c : Char) (rest : List Char) :
    List Char × List Char :=
  if c = '$' then
    match rest with
    | [] => (['$'], [])
    | d :: rest2 =>
      if d = '$' then
        (['$'], rest2)
      else if isIdStart d then
        let ident := d :: rest2.takeWhile isIdChar
        let after := rest2.dropWhile isIdChar
        match dictGet m (String.mk ident) with
        | some v => (v.data, after)
        | none => ('$' :: ident, after)
      else if d = '{' then
        match rest2 with
        | [] => (['$'], rest)
        | e :: rest3 =>
          if isIdStart e then
            let ident := e :: rest3.takeWhile isIdChar
            match rest3.dropWhile isIdChar with
            | '}' :: rest4 =>
              match dictGet m (String.mk ident) with
              | some v => (v.data, rest4)
              | none => ('$' :: '{' :: (ident ++ ['}']), rest4)
            | _ => (['$'], rest)
          else (['$'], rest)
      else (['$'], rest)
  else ([c], rest)

/-- The full `safe_substitute` scan, with fuel bounding the number of scan
steps; every step consumes at least one input character, so fuel equal to
the input length always suffices. -/
def safeSubFuel (m : List (String × String)) : Nat → List Char → List Char
  | 0, l => l
  | _ + 1, [] => []
  | fuel + 1, c :: rest =>
    let step := subStep m c rest
    step.1 ++ safeSubFuel m fuel step.2

/-- Python `Template(s).safe_substitute(m)`.  Total: unresolved or invalid
placeholders are left verbatim, never an error. -/
def safe_substitute (m : List (String × String)) (s : String) : String :=
  String.mk (safeSubFuel m s.data.length s.data)

/-- `fill_template` from `build_site.py` (and `staticcldf/__init__.py`):
repeatedly applies `safe_substitute` until the string no longer changes.
The Python `while True` loop is embedded with explicit fuel; `none` means
the loop has not reached its fixed point within `fuel` iterations. -/
def fill_template (fuel : Nat) (template : String)
    (replaces : List (String × String)) : Option String :=
  match fuel with
  | 0 => none
  | f + 1 =>
    let new_source := safe_substitute replaces template
    if new_source = template then some template
    else fill_template f new_source replaces

/-! ## CLDF cell values and the Dataset Reader -/

/-- A cell value as seen through a `pycldf` row dictionary: a plain string,
an ordered collection (list/tuple) of strings, or a missing value
(Python `None`). -/
inductive CellValue
  | str (s : String)
  | lst (ss : List String)
  | null
deriving DecidableEq, Repr

/-- The per-cell conversion in both `read_cldf_data` variants:
`" ".join(value) if isinstance(value, (list, tuple)) else value`. -/
def flattenCell : CellValue → CellValue
  | .lst ss => .str (String.intercalate " " ss)
  | v => v

/-- One extracted row: `[flatten(row[field]) for field in fields]`.
A source row is embedded as the total function from column name to cell
value that a `pycldf` row dictionary provides. -/
def extractRow (fields : List String) (row : String → CellValue) : List CellValue :=
  fields.map (fun field => flattenCell (row field))

/-- Column-selecting extraction of one table, as in `read_cldf_data` of
`build_site.py`: one output row per source row, configured columns only. -/
def read_table (fields : List String) (rows : List (String → CellValue)) :
    List (List CellValue) :=
  rows.map (extractRow fields)

/-- Full-table extraction of one table, as in `read_cldf_data` of
`staticcldf/input_cldf.py`: `[columns] + [...]` — the header row is
prepended as the first row of the result. -/
def read_table_full (columns : List String) (rows : List (String → CellValue)) :
    List (List CellValue) :=
  (columns.map CellValue.str) :: rows.map (extractRow columns)

/-- `read_cldf_data` of `build_site.py`: for every config key ending in
`_table`, extract the configured columns of the corresponding dataset
table.  The dataset is embedded as a map from CLDF table name to rows. -/
def read_cldf_data (config : List (String × List String))
    (dataset : String → List (String → CellValue)) :
    List (String × List (List CellValue)) :=
  (config.filter (fun kv => kv.1.endsWith "_table")).map (fun kv =>
    let table_name := (kv.1.splitOn "_").headD ""
    let cldf_table := table_name.capitalize ++ "Table"
    (table_name, read_table kv.2 (dataset cldf_table)))

/-! ## HTML table rendering (tabulate) and the attribute rewrite -/

/-- Python `str()` of a cell value as `tabulate` renders it (missing values
use tabulate's default empty `missingval`; in this pipeline list values
are always flattened before tabulation, so their rendering is modelled
up to quoting). -/
def cellToStr : CellValue → String
  | .str s => s
  | .lst ss => String.intercalate ", " ss
  | .null => ""

/-- One `<tr>` line with the given cell tag, as emitted by the external
`tabulate` library's html format. -/
def htmlRow (tag : String) (cells : List String) : String :=
  "<tr>" ++
    String.join (cells.map (fun c => "<" ++ tag ++ ">" ++ c ++ "</" ++ tag ++ ">")) ++
    "</tr>"

/-- Everything the external `tabulate` html format emits after its opening
`<table>` tag: the `<thead>` built from the headers and a `<tbody>` with
one `<tr>` per data row. -/
def tabulateBody (rows : List (List CellValue)) (headers : List String) : String :=
  "\n<thead>\n" ++ htmlRow "th" headers ++ "\n</thead>\n<tbody>\n" ++
    String.join (rows.map (fun r => htmlRow "td" (r.map cellToStr) ++ "\n")) ++
    "</tbody>\n</table>"

/-- Models the external `tabulate(rows, headers=headers, tablefmt="html")`
call: a `<table>` element followed by head and body rows. -/
def tabulate (rows : List (List CellValue)) (headers : List String) : String :=
  "<table>" ++ tabulateBody rows headers

/-- Python `str.replace(old, new)` with non-empty `old`: left-to-right,
non-overlapping, replaced text is not rescanned. -/
def pyReplaceAux (o : Char) (os new : List Char) : List Char → List Char
  | [] => []
  | c :: rest =>
    if (o :: os).isPrefixOf (c :: rest) then
      new ++ pyReplaceAux o os new (rest.drop os.length)
    else
      c :: pyReplaceAux o os new rest
termination_by l => l.length
decreasing_by
  · simp only [List.length_cons, List.length_drop]
    omega
  · simp only [List.length_cons]
    omega

/-- Python `str.replace(old, new)` (on an empty `old` the program never
calls it). -/
def pyReplace (old new l : List Char) : List Char :=
  match old with
  | [] => l
  | o :: os => pyReplaceAux o os new l

/-- The fixed attribute-bearing opening tag that `build_tables` swaps in. -/
def tableAttrTag : String := "<table id=\"data_table\" class=\"display\">"

/-- The rewrite `html_table.replace("<table>", ...)` from `build_tables`. -/
def addTableAttrs (s : String) : String :=
  String.mk (pyReplace "<table>".data tableAttrTag.data s.data)

/-! ## The mutable dictionary heap of build_tables -/

/-- The heap of Python dictionaries live during `build_tables`: dictionaries
indexed by allocation order.  `replaces.copy()` allocates a fresh
dictionary with the same contents; item assignment mutates one slot. -/
structure Heap where
  dicts : List (List (String × String))
deriving Repr

/-- Dereference a dictionary. -/
def Heap.get (h : Heap) (r : Nat) : List (String × String) :=
  h.dicts.getD r []

/-- `d.copy()` / allocation of a new dictionary: returns the new heap and
the reference to the fresh dictionary. -/
def Heap.alloc (h : Heap) (d : List (String × String)) : Heap × Nat :=
  (⟨h.dicts ++ [d]⟩, h.dicts.length)

/-- In-place item assignment `h[r][k] = v`. -/
def Heap.setItem (h : Heap) (r : Nat) (k v : String) : Heap :=
  ⟨h.dicts.set r (dictSet (h.get r) k v)⟩

/-! ## build_html and build_tables -/

/-- The key under which `build_tables` (build_site.py) injects the table. -/
def tableKey : String := "home_nosb_main"

/-- The HTML fragment `build_tables` builds for one table before injecting
it: `tabulate(...)` followed by the `<table>` attribute rewrite. -/
def tableFragment (rows : List (List CellValue)) (headers : List String) : String :=
  addTableAttrs (tabulate rows headers)

/-- `build_html` from `build_site.py`, acting on an explicit output file
system (path to contents): `fill_template` first, then — only on
termination — open/truncate and write the target file.  Returns the
updated file system and the rendered source, `none` when the
`fill_template` loop does not finish. -/
def build_html (fuel : Nat) (template : String) (replaces : List (String × String))
    (output_file : String) (outfs : List (String × String)) :
    List (String × String) × Option String :=
  match fill_template fuel template replaces with
  | none => (outfs, none)
  | some source => (dictSet outfs output_file source, some source)

/-- `build_html` from `staticcldf/render_html.py`: rendering is delegated
to a Jinja template, embedded as a function that may fail (raise); the
target file is opened for writing only after `render` has returned. -/
def build_html_jinja (render : List (String × String) → Except String String)
    (replaces : List (String × String)) (output_file : String)
    (outfs : List (String × String)) :
    List (String × String) × Except String String :=
  match render replaces with
  | .error e => (outfs, .error e)
  | .ok source => (dictSet outfs output_file source, .ok source)

/-- `build_tables` from `build_site.py`, on the explicit dictionary heap:
for each of the three tables, `replaces.copy()`, inject the table fragment
into the copy, render the page with the copy.  `baseRef` is the reference
of the base replacement mapping.  Returns the final heap, the final output
file system and, per page, the mapping the page was rendered with. -/
def build_tables (fuel : Nat) (data : String → List (List CellValue))
    (config : String → List String) (template : String)
    (h0 : Heap) (baseRef : Nat) (outfs0 : List (String × String)) :
    Heap × List (String × String) × List (String × List (String × String)) :=
  -- write forms
  let form_html := tableFragment (data "form") (config "form_table")
  let a1 := h0.alloc (h0.get baseRef)
  let h2 := a1.1.setItem a1.2 tableKey form_html
  let form_replaces := h2.get a1.2
  let w1 := build_html fuel template form_replaces "forms.html" outfs0
  -- write languages
  let lang_html := tableFragment (data "language") (config "language_table")
  let a2 := h2.alloc (h2.get baseRef)
  let h4 := a2.1.setItem a2.2 tableKey lang_html
  let lang_replaces := h4.get a2.2
  let w2 := build_html fuel template lang_replaces "languages.html" w1.1
  -- write concepts
  let param_html := tableFragment (data "parameter") (config "parameter_table")
  let a3 := h4.alloc (h4.get baseRef)
  let h6 := a3.1.setItem a3.2 tableKey param_html
  let param_replaces := h6.get a3.2
  let w3 := build_html fuel template param_replaces "parameters.html" w2.1
  (h6, w3.1,
    [("forms.html", form_replaces), ("languages.html", lang_replaces),
     ("parameters.html", param_replaces)])

/-! ## load_config, content fragments, and main -/

/-- Models the external `markdown.markdown` conversion on the plain
single-paragraph fragments this repository feeds it: the text is wrapped
in a paragraph element.  The point relevant to the claims is that the
conversion is applied, and is not the identity on plain text. -/
def markdown_markdown (s : String) : String :=
  "<p>" ++ s ++ "</p>"

/-- `_md2html` from `load_config`: read `base_path / "contents" / filename`
and run it through `markdown.markdown` — unconditionally, whatever the
file extension (the code's own TODO notes it should only convert `.md`).
`none` embeds the `FileNotFoundError` of a missing fragment file. -/
def md2html (fs : List (String × String)) (filename : String) : Option String :=
  (dictGet fs ("contents/" ++ filename)).map markdown_markdown

/-- The nine keys `load_config` pops out of the configuration. -/
def poppedKeys : List String :=
  ["title", "description", "author", "favicon", "mainlink", "citation",
   "footer_file", "index_file", "sidebar_file"]

/-- `load_config` from `build_site.py` / `staticcldf/utils.py`.  `cfg` is
the parsed `config.json`, `fs` the content-fragment files.  Evaluation
order follows the Python dict literal: the six scalar pops, then the three
fragment reads; `none` embeds the abort on a missing key or missing
fragment file.  Returns the remaining configuration and the replacement
mapping. -/
def load_config (cfg : List (String × String)) (fs : List (String × String)) :
    Option (List (String × String) × List (String × String)) := do
  let title ← dictGet cfg "title"
  let description ← dictGet cfg "description"
  let author ← dictGet cfg "author"
  let favicon ← dictGet cfg "favicon"
  let mainlink ← dictGet cfg "mainlink"
  let citation ← dictGet cfg "citation"
  let footer_file ← dictGet cfg "footer_file"
  let footer ← md2html fs footer_file
  let index_file ← dictGet cfg "index_file"
  let home_sb_main ← md2html fs index_file
  let sidebar_file ← dictGet cfg "sidebar_file"
  let home_sidebar ← md2html fs sidebar_file
  let config := cfg.filter (fun kv => !(poppedKeys.contains kv.1))
  return (config,
    [("title", title), ("description", description), ("author", author),
     ("favicon", favicon), ("mainlink", mainlink), ("citation", citation),
     ("footer", footer), ("home_sb_main", home_sb_main),
     ("home_sidebar", home_sidebar)])

/-- `main` from `build_site.py`, with its effects made explicit: load the
configuration and replacements, read the CLDF data, load the templates,
build `index.html`, then the per-table pages.  `dataset`/`templates` are
`none` when the corresponding files are absent.  Returns the written
output files and `some` error stage name when the run aborts. -/
def main_run (fuel : Nat) (cfg : List (String × String))
    (fs : List (String × String))
    (dataset : Option (String → List (String → CellValue)))
    (tableCfg : List (String × List String))
    (templates : Option (String × String)) :
    List (String × String) × Option String :=
  match load_config cfg fs with
  | none => ([], some "config")
  | some (_, replaces) =>
    match dataset with
    | none => ([], some "data")
    | some raw =>
      let cldf_data := read_cldf_data tableCfg raw
      match templates with
      | none => ([], some "template")
      | some (sb_template, nosb_template) =>
        let w0 := build_html fuel sb_template replaces "index.html" []
        let r := build_tables fuel
          (fun name => (List.lookup name cldf_data).getD [])
          (fun key => (List.lookup key tableCfg).getD [])
          nosb_template ⟨[replaces]⟩ 0 w0.1
        (r.2.1, none)

/-! ## Lemmas about the substitution scan -/

/-- Dropping a prefix never lengthens a list. -/
theorem length_dropWhile_le (p : Char → Bool) (l : List Char) :
    (l.dropWhile p).length ≤ l.length := by
  induction l with
  | nil => simp [List.dropWhile]
  | cons a t ih =>
    by_cases h : p a
    · simp [List.dropWhile, h]; omega
    · simp [List.dropWhile, h]

/-- Each scan step never lengthens the remaining input. -/
theorem subStep_snd_length (m : List (String × String)) (c : Char) (rest : List Char) :
    (subStep m c rest).2.length ≤ rest.length := by
  unfold subStep
  split
  · split
    · simp
    · rename_i d rest2
      split
      · simp
      · split
        · dsimp only
          cases dictGet m ⟨d :: List.takeWhile isIdChar rest2⟩ <;>
            · dsimp only
              have := length_dropWhile_le isIdChar rest2
              simp only [List.length_cons]
              omega
        · split
          · split
            · simp
            · rename_i e rest3
              split
              · split
                · rename_i heq
                  dsimp only
                  cases dictGet m ⟨e :: List.takeWhile isIdChar rest3⟩ <;>
                    · dsimp only
                      have h2 := length_dropWhile_le isIdChar rest3
                      rw [heq] at h2
                      simp only [List.length_cons] at h2 ⊢
                      omega
                · simp
              · simp
          · simp
  · simp

/-- The scan result does not depend on the fuel, once the fuel covers the
input length. -/
theorem safeSubFuel_irrel (m : List (String × String)) :
    ∀ f₁ f₂ l, l.length ≤ f₁ → l.length ≤ f₂ →
      safeSubFuel m f₁ l = safeSubFuel m f₂ l := by
  intro f₁
  induction f₁ with
  | zero =>
    intro f₂ l h1 _
    have : l = [] := List.eq_nil_of_length_eq_zero (Nat.le_zero.mp h1)
    subst this
    cases f₂ <;> rfl
  | succ a ih =>
    intro f₂ l h1 h2
    cases l with
    | nil => cases f₂ <;> rfl
    | cons c rest =>
      cases f₂ with
      | zero => simp at h2
      | succ b =>
        simp only [safeSubFuel]
        congr 1
        have hs := subStep_snd_length m c rest
        simp only [List.length_cons] at h1 h2
        exact ih b (subStep m c rest).2 (by omega) (by omega)

/-- On input without the delimiter, one substitution pass is the identity. -/
theorem safeSubFuel_no_delim (m : List (String × String)) :
    ∀ (f : Nat) (l : List Char), (∀ c ∈ l, c ≠ '$') → safeSubFuel m f l = l := by
  intro f
  induction f with
  | zero => intro l _; rfl
  | succ a ih =>
    intro l h
    cases l with
    | nil => rfl
    | cons c rest =>
      have hc : ¬ c = '$' := h c (by simp)
      simp only [safeSubFuel, subStep, if_neg hc]
      simpa using ih rest (fun x hx => h x (by simp [hx]))

/-- When the `fill_template` loop finishes, its output is a fixed point of
`safe_substitute`. -/
theorem fill_template_fix :
    ∀ (f : Nat) (t : String) (r : List (String × String)) (o : String),
      fill_template f t r = some o → safe_substitute r o = o := by
  intro f
  induction f with
  | zero => intro t r o h; simp [fill_template] at h
  | succ a ih =>
    intro t r o h
    simp only [fill_template] at h
    split at h
    · rename_i heq
      cases h
      exact heq
    · exact ih _ _ _ h

/-! ## Claim theorems -/

/-- C1: the Dataset Reader's cell flattening joins a list/tuple of strings
with a single space, leaves every non-collection value (strings, empty
strings, missing values) unchanged, and is idempotent: re-applying it to
an already-flattened value is a no-op. -/
theorem flattenCell_spec :
    (∀ ss : List String, flattenCell (.lst ss) = .str (String.intercalate " " ss)) ∧
    (∀ s : String, flattenCell (.str s) = .str s) ∧
    flattenCell .null = .null ∧
    (∀ v : CellValue, flattenCell (flattenCell v) = flattenCell v) := by
  refine ⟨fun _ => rfl, fun _ => rfl, rfl, fun v => ?_⟩
  cases v <;> rfl

/-- C2: whenever the `fill_template` loop terminates, its output is a fixed
point of substitution: one more `safe_substitute` pass returns it
unchanged, and running `fill_template` on the output returns the output,
so `fill_template (fill_template t r) r = fill_template t r`. -/
theorem fill_template_idem (f : Nat) (t : String) (r : List (String × String))
    (o : String) (h : fill_template f t r = some o) :
    safe_substitute r o = o ∧ fill_template f o r = some o := by
  have hfix := fill_template_fix f t r o h
  refine ⟨hfix, ?_⟩
  cases f with
  | zero => simp [fill_template] at h
  | succ a => simp [fill_template, hfix]

/-- Witness for C2 at a concrete input: `fill_template` maps `$a` to `x`
under `a ↦ x`, and re-running it on the output `x` returns `x`. -/
theorem fill_template_idem_witness :
    fill_template 3 "$a" [("a", "x")] = some "x" ∧
    (safe_substitute [("a", "x")] "x" = "x" ∧
      fill_template 3 "x" [("a", "x")] = some "x") :=
  ⟨by decide, fill_template_idem 3 "$a" [("a", "x")] "x" (by decide)⟩

/-- C10 counterexample: with the flat mapping `a ↦ x` (its value holds no
placeholder — not even a delimiter), the template made of two escaped
delimiters followed by `a` is still not at a fixed point after two
substitution passes: pass two yields a string that a third pass changes. -/
theorem fill_template_two_pass_cex :
    (([("a", "x")] : List (String × String)).all
        (fun kv => kv.2.data.all fun c => c != '$')) = true ∧
    safe_substitute [("a", "x")] (safe_substitute [("a", "x")] "$$$$a") ≠
      safe_substitute [("a", "x")]
        (safe_substitute [("a", "x")] (safe_substitute [("a", "x")] "$$$$a")) :=
  ⟨by decide, by decide⟩

/-- C10 amended: for every template and replacement mapping such that a
single substitution pass eliminates every delimiter character (in
particular every delimiter in the template starts a placeholder of a
mapped key and the substituted values are delimiter-free — the flat,
acyclic case without escape sequences), the `fill_template` loop
terminates, its result is the single-pass output, and the fixed point is
reached after at most two substitution passes. -/
theorem fill_template_flat (fuel : Nat) (t : String) (r : List (String × String))
    (h : ((safe_substitute r t).data.all fun c => c != '$') = true)
    (hf : 2 ≤ fuel) :
    fill_template fuel t r = some (safe_substitute r t) ∧
    safe_substitute r (safe_substitute r t) = safe_substitute r t := by
  have hall : ∀ c ∈ (safe_substitute r t).data, c ≠ '$' := by
    intro c hc
    simpa using List.all_eq_true.mp h c hc
  have hfix : safe_substitute r (safe_substitute r t) = safe_substitute r t := by
    conv_lhs => rw [safe_substitute]
    rw [safeSubFuel_no_delim r _ _ hall]
  refine ⟨?_, hfix⟩
  obtain ⟨k, rfl⟩ : ∃ k, fuel = k + 2 := ⟨fuel - 2, by omega⟩
  by_cases he : safe_substitute r t = t
  · simp [fill_template, he]
  · simp [fill_template, he, hfix]

/-- Witness for the amended C10 at a concrete input: one pass on `$a$b`
under `a ↦ x, b ↦ y` leaves no delimiter, and `fill_template` with the
minimal fuel of two returns that single-pass output. -/
theorem fill_template_flat_witness :
    fill_template 2 "$a$b" [("a", "x"), ("b", "y")] =
      some (safe_substitute [("a", "x"), ("b", "y")] "$a$b") :=
  (fill_template_flat 2 "$a$b" [("a", "x"), ("b", "y")]
    (by decide) (by decide)).1

/-- `takeWhile` stops immediately when the head fails the test. -/
theorem takeWhile_head_fails (p : Char → Bool) (rest : List Char)
    (h : (rest.head?.all fun c => !p c) = true) : rest.takeWhile p = [] := by
  cases rest with
  | nil => rfl
  | cons r rs =>
    simp only [List.head?, Option.all] at h
    simp only [Bool.not_eq_true'] at h
    simp [List.takeWhile_cons, h]

/-- `dropWhile` drops nothing when the head fails the test. -/
theorem dropWhile_head_fails (p : Char → Bool) (rest : List Char)
    (h : (rest.head?.all fun c => !p c) = true) : rest.dropWhile p = rest := by
  cases rest with
  | nil => rfl
  | cons r rs =>
    simp only [List.head?, Option.all] at h
    simp only [Bool.not_eq_true'] at h
    simp [List.dropWhile_cons, h]

/-- A scan step on an unmapped named placeholder emits it verbatim. -/
theorem subStep_unresolved (m : List (String × String)) (d : Char)
    (ds rest : List Char)
    (h1 : isIdStart d = true) (h2 : ds.all isIdChar = true)
    (h3 : (rest.head?.all fun c => !isIdChar c) = true)
    (h4 : dictGet m (String.mk (d :: ds)) = none) :
    subStep m '$' (d :: ds ++ rest) = ('$' :: d :: ds, rest) := by
  have hd : ¬ d = '$' := by
    intro e
    rw [e] at h1
    exact absurd h1 (by decide)
  have hds : ∀ a ∈ ds, isIdChar a := fun a ha => List.all_eq_true.mp h2 a ha
  have htw : (ds ++ rest).takeWhile isIdChar = ds := by
    rw [List.takeWhile_append_of_pos hds, takeWhile_head_fails isIdChar rest h3,
      List.append_nil]
  have hdw : (ds ++ rest).dropWhile isIdChar = rest := by
    rw [List.dropWhile_append_of_pos hds, dropWhile_head_fails isIdChar rest h3]
  simp [subStep, hd, h1, htw, hdw, h4]

/-- C6: a placeholder whose name has no entry in the replacement mapping is
left verbatim in the output of a substitution pass, and `fill_template`
substitution is total — the embedding of `safe_substitute` returns a
string for every input, never an error. -/
theorem safe_substitute_unresolved (m : List (String × String)) (d : Char)
    (ds rest : List Char)
    (h1 : isIdStart d = true) (h2 : ds.all isIdChar = true)
    (h3 : (rest.head?.all fun c => !isIdChar c) = true)
    (h4 : dictGet m (String.mk (d :: ds)) = none) :
    safe_substitute m (String.mk ('$' :: d :: ds ++ rest)) =
      String.mk ('$' :: d :: ds ++ (safe_substitute m (String.mk rest)).data) := by
  have e1 : safe_substitute m (String.mk ('$' :: d :: ds ++ rest)) =
      String.mk ((subStep m '$' (d :: ds ++ rest)).1 ++
        safeSubFuel m (d :: ds ++ rest).length (subStep m '$' (d :: ds ++ rest)).2) := rfl
  rw [e1, subStep_unresolved m d ds rest h1 h2 h3 h4]
  have e2 : safeSubFuel m (d :: ds ++ rest).length rest =
      safeSubFuel m rest.length rest := by
    apply safeSubFuel_irrel
    · simp
      omega
    · exact Nat.le_refl _
  rw [e2]
  rfl

/-- Witness for C6 at a concrete input: the unmapped placeholder `$abc` is
left verbatim by a substitution pass. -/
theorem safe_substitute_unresolved_witness :
    safe_substitute [("key", "val")] (String.mk ('$' :: 'a' :: ['b', 'c'] ++ [' ', 'z'])) =
      String.mk ('$' :: 'a' :: ['b', 'c'] ++
        (safe_substitute [("key", "val")] (String.mk [' ', 'z'])).data) :=
  safe_substitute_unresolved [("key", "val")] 'a' ['b', 'c'] [' ', 'z']
    (by decide) (by decide) (by decide) (by decide)

/-- C4 counterexample: under the full-table policy of
`staticcldf/input_cldf.py` the produced table has one row more than the
source table — the header row is prepended — so a one-row source table
yields a two-row result. -/
theorem read_table_full_row_count_cex :
    (read_table_full ["ID"] [fun _ => CellValue.str "x"]).length ≠
      ([fun _ => CellValue.str "x"] : List (String → CellValue)).length := by
  simp [read_table_full]

/-- C4 amended: under the column-selecting policy the output has exactly as
many rows as the source and every row has exactly as many cells as the
configured column list; under the full-table policy the output has one
extra row (the prepended header row) and every row — the header row
included — has exactly as many cells as the table's own column list. -/
theorem read_table_shape :
    (∀ (fields : List String) (rows : List (String → CellValue)),
      (read_table fields rows).length = rows.length) ∧
    (∀ (fields : List String) (rows : List (String → CellValue))
        (r : List CellValue), r ∈ read_table fields rows → r.length = fields.length) ∧
    (∀ (columns : List String) (rows : List (String → CellValue)),
      (read_table_full columns rows).length = rows.length + 1) ∧
    (∀ (columns : List String) (rows : List (String → CellValue))
        (r : List CellValue), r ∈ read_table_full columns rows →
          r.length = columns.length) := by
  refine ⟨?_, ?_, ?_, ?_⟩
  · intro fields rows
    simp [read_table]
  · intro fields rows r hr
    simp only [read_table, List.mem_map] at hr
    obtain ⟨row, _, rfl⟩ := hr
    simp [extractRow]
  · intro columns rows
    simp [read_table_full]
  · intro columns rows r hr
    simp only [read_table_full, List.mem_cons, List.mem_map] at hr
    rcases hr with rfl | ⟨row, _, rfl⟩
    · simp
    · simp [extractRow]

/-- Witness for the amended C4 at concrete inputs: a one-column extraction
produces one-cell rows under both policies (header row included). -/
theorem read_table_shape_witness :
    ([CellValue.str "v"] : List CellValue).length = (["Name"] : List String).length ∧
    ([CellValue.str "Name"] : List CellValue).length = (["Name"] : List String).length :=
  ⟨read_table_shape.2.1 ["Name"] [fun _ => CellValue.str "v"] [CellValue.str "v"]
      (by simp [read_table, extractRow, flattenCell]),
    read_table_shape.2.2.2 ["Name"] [] [CellValue.str "Name"]
      (by simp [read_table_full])⟩

/-- A list is a `isPrefixOf`-prefix of itself followed by anything. -/
theorem isPrefixOf_append_self (l t : List Char) : l.isPrefixOf (l ++ t) = true := by
  induction l with
  | nil => simp [List.isPrefixOf]
  | cons a as ih => simp [List.isPrefixOf, ih]

/-- Python `str.replace` rewrites an occurrence sitting at the head of the
input and resumes after it. -/
theorem pyReplaceAux_append (o : Char) (os new t : List Char) :
    pyReplaceAux o os new ((o :: os) ++ t) = new ++ pyReplaceAux o os new t := by
  have hp : (o :: os).isPrefixOf (o :: (os ++ t)) = true := by
    rw [← List.cons_append]
    exact isPrefixOf_append_self (o :: os) t
  rw [List.cons_append, pyReplaceAux, if_pos hp, List.drop_left]

/-- C8: the per-table HTML fragment of `build_tables` opens with a
`<table>` tag carrying the fixed `id="data_table"` and `class="display"`
attributes, whatever the table's headers and rows. -/
theorem tableFragment_fixed_tag (rows : List (List CellValue)) (headers : List String) :
    ∃ t : List Char, (tableFragment rows headers).data = tableAttrTag.data ++ t := by
  refine ⟨pyReplaceAux '<' "table>".data tableAttrTag.data
    (tabulateBody rows headers).data, ?_⟩
  show pyReplace "<table>".data tableAttrTag.data (tabulate rows headers).data = _
  have h1 : (tabulate rows headers).data =
      "<table>".data ++ (tabulateBody rows headers).data := by
    rw [tabulate, String.data_append]
  rw [h1]
  show pyReplaceAux '<' "table>".data tableAttrTag.data
      (('<' :: "table>".data) ++ (tabulateBody rows headers).data) = _
  rw [pyReplaceAux_append]

/-- C3: `build_tables` never mutates the base replacement mapping — after
all three page renders the dictionary at the base reference still holds
exactly its original entries — and each page is rendered with a private
copy of the base mapping extended with exactly that page's own table
fragment, so the value injected for one table's page never appears in the
mapping used to render another table's page. -/
theorem build_tables_no_leak (fuel : Nat) (data : String → List (List CellValue))
    (config : String → List String) (template : String)
    (base : List (String × String)) (outfs : List (String × String)) :
    (build_tables fuel data config template ⟨[base]⟩ 0 outfs).1.get 0 = base ∧
    (build_tables fuel data config template ⟨[base]⟩ 0 outfs).2.2 =
      [("forms.html",
          dictSet base tableKey (tableFragment (data "form") (config "form_table"))),
       ("languages.html",
          dictSet base tableKey (tableFragment (data "language") (config "language_table"))),
       ("parameters.html",
          dictSet base tableKey (tableFragment (data "parameter") (config "parameter_table")))] := by
  constructor
  · rfl
  · rfl

/-- A configuration whose footer fragment is a plain-text (non-Markdown)
file. -/
def cfgPlainFooter : List (String × String) :=
  [("title", "T"), ("description", "D"), ("author", "A"), ("favicon", "F"),
   ("mainlink", "M"), ("citation", "C"), ("footer_file", "footer.txt"),
   ("index_file", "index.md"), ("sidebar_file", "sidebar.md"),
   ("output_path", "_site")]

/-- The content fragments for `cfgPlainFooter`; the footer is plain text. -/
def fsPlainFooter : List (String × String) :=
  [("contents/footer.txt", "plain footer"), ("contents/index.md", "welcome"),
   ("contents/sidebar.md", "side")]

/-- C5, evaluated at the failing input: `load_config` builds exactly the
nine recognized keys with the scalar values taken from the configuration,
but it runs every content fragment through the Markdown conversion — the
non-Markdown `footer.txt` fragment included — instead of passing
non-Markdown fragments through verbatim as the claim states. -/
theorem load_config_always_converts :
    load_config cfgPlainFooter fsPlainFooter =
      some ([("output_path", "_site")],
        [("title", "T"), ("description", "D"), ("author", "A"), ("favicon", "F"),
         ("mainlink", "M"), ("citation", "C"),
         ("footer", "<p>plain footer</p>"),
         ("home_sb_main", "<p>welcome</p>"),
         ("home_sidebar", "<p>side</p>")]) ∧
    markdown_markdown "plain footer" ≠ "plain footer" :=
  ⟨by decide, by decide⟩

/-- C7: when the configuration names a footer fragment file that does not
exist, the run aborts inside `load_config` — before the dataset is read,
before any template is rendered and before any output file is written —
and the result does not depend on the dataset or the templates at all. -/
theorem main_aborts_on_missing_fragment (fuel : Nat)
    (cfg fs : List (String × String))
    (dataset : Option (String → List (String → CellValue)))
    (tableCfg : List (String × List String))
    (templates : Option (String × String)) (f : String)
    (h1 : dictGet cfg "footer_file" = some f)
    (h2 : dictGet fs ("contents/" ++ f) = none) :
    main_run fuel cfg fs dataset tableCfg templates = ([], some "config") ∧
    ∀ (dataset2 : Option (String → List (String → CellValue)))
      (templates2 : Option (String × String)),
      main_run fuel cfg fs dataset2 tableCfg templates2 =
        main_run fuel cfg fs dataset tableCfg templates := by
  have hlc : load_config cfg fs = none := by
    unfold load_config
    cases dictGet cfg "title" with
    | none => rfl
    | some v1 =>
      cases dictGet cfg "description" with
      | none => rfl
      | some v2 =>
        cases dictGet cfg "author" with
        | none => rfl
        | some v3 =>
          cases dictGet cfg "favicon" with
          | none => rfl
          | some v4 =>
            cases dictGet cfg "mainlink" with
            | none => rfl
            | some v5 =>
              cases dictGet cfg "citation" with
              | none => rfl
              | some v6 =>
                rw [h1]
                simp [md2html, h2]
  constructor
  · simp [main_run, hlc]
  · intro dataset2 templates2
    simp [main_run, hlc]

/-- Witness for C7 at a concrete input: a configuration referencing the
missing fragment `missing.md` makes the run abort with no file written. -/
theorem main_aborts_on_missing_fragment_witness :
    main_run 1 [("footer_file", "missing.md")] [] none [] none =
      ([], some "config") :=
  (main_aborts_on_missing_fragment 1 [("footer_file", "missing.md")] [] none [] none
    "missing.md" (by decide) (by decide)).1

/-- C9: in both `build_html` variants the target file is opened for writing
only after rendering has finished, so a run whose rendering step fails (a
raising Jinja render, or a `fill_template` loop that never reaches its
fixed point) leaves the output file system exactly as it was: the target
file is neither created nor truncated. -/
theorem build_html_no_partial_write
    (render : List (String × String) → Except String String)
    (replaces : List (String × String)) (output_file : String)
    (outfs : List (String × String)) (e : String)
    (hr : render replaces = .error e)
    (fuel : Nat) (template : String) (outfs2 : List (String × String))
    (hf : fill_template fuel template replaces = none) :
    build_html_jinja render replaces output_file outfs = (outfs, .error e) ∧
    build_html fuel template replaces output_file outfs2 = (outfs2, none) := by
  constructor
  · simp [build_html_jinja, hr]
  · simp [build_html, hf]

/-- Witness for C9 at a concrete input: a failing renderer and an exhausted
`fill_template` loop both leave the (empty) output file system untouched. -/
theorem build_html_no_partial_write_witness :
    build_html_jinja (fun _ => .error "boom") [] "forms.html" [] =
      ([], .error "boom") ∧
    build_html 0 "$x" [] "forms.html" [] = ([], none) :=
  build_html_no_partial_write (fun _ => .error "boom") [] "forms.html" [] "boom"
    rfl 0 "$x" [] rfl
